import Mathlib

/-!
Verification of the event-subscription and network-session code of this
repository.

Part 1 embeds the event-service stub (`StubEventService` together with
`StubTransactionEventListener`): a named service holding an
insertion-ordered set of listeners, with `registerTransactionListener`,
`unregisterEventListener`, `sendEvent` and `sendError`.  JavaScript
`Set.forEach` iterates the live set: an element deleted before being
visited is skipped, an element appended during iteration is visited.
The embedding reproduces this with an explicit visited list and fuel
(the source can loop forever when callbacks keep registering listeners).
User callbacks are embedded as small programs (`CbAct` lists, looked up
by callback id in an environment) that may re-enter the registration
API or throw; a thrown exception unwinds but the heap mutations made so
far persist, so results are a pair of final state and optional thrown
message.  Callback invocations are recorded in a log so that theorems
can speak about which listener was invoked with which arguments.

Part 2 embeds `Network` from `fabric-network/src/network.js`: the
contract map keyed by the string `chaincodeId ++ ":" ++ name`, the
commit-listener map keyed by callback identity, and
`_initializeInternalChannel`'s discovery target selection, which is
given a trace of the network calls (connect / discovery send) it makes
so that "fails before any network call" is expressible.
-/

set_option autoImplicit false

namespace FabricSdk

/-- The payload of a delivered event; the stub only inspects `transactionId`. -/
structure EventInfo where
  transactionId : String
deriving DecidableEq

/-- Registration options.  `unregister = none` models the JavaScript
`undefined` (option not supplied); the stub listener treats anything
other than an explicit `false` as one-shot. -/
structure EventRegistrationOptions where
  unregister : Option Bool
deriving DecidableEq

/-- One primitive step of a user callback body: re-entering the
registration API or throwing.  A callback body is a `List CbAct`;
the body of callback `i` is `env i` for an environment
`env : Nat → List CbAct`.  `registerL` names the new listener's
callback by its id in that environment. -/
inductive CbAct where
  | unregisterL (lid : Nat)
  | registerL (txid : String) (cbId : Nat) (options : EventRegistrationOptions)
  | throwE (msg : String)
deriving DecidableEq

/-- A `StubTransactionEventListener`: the transaction id it watches, the
id of its user callback, and its registration options.  `lid` is the
object identity of the listener (JavaScript `Set` membership is by
object identity). -/
structure Listener where
  lid : Nat
  transactionId : String
  cbId : Nat
  options : EventRegistrationOptions
deriving DecidableEq

/-- A record of one invocation of a user callback: which callback, on
behalf of which listener, and the `(error, event)` pair it received. -/
structure CallRecord where
  cbId : Nat
  lid : Nat
  error : Option String
  event : Option EventInfo
deriving DecidableEq

/-- The mutable state of a `StubEventService`: the insertion-ordered
listener set, the next fresh listener identity, and the log of callback
invocations made so far (observational instrumentation). -/
structure SvcState where
  eventListeners : List Listener
  nextLid : Nat
  log : List CallRecord
deriving DecidableEq

/-- Results of stateful operations: the final heap plus the message of a
thrown exception when one escaped.  A throw unwinds control but the
mutations already made persist. -/
abbrev R := SvcState × Option String

/-- `StubEventService.unregisterEventListener`: `Set.delete` the handle,
throwing when it was not a member (the source's message has the literal
`unregisterEventLister` typo). -/
def unregisterEventListener (s : SvcState) (lid : Nat) : R :=
  if s.eventListeners.any (fun l => l.lid == lid) then
    ({ s with eventListeners := s.eventListeners.filter (fun l => !(l.lid == lid)) }, none)
  else
    (s, some "unregisterEventLister called for listener that is not registered")

/-- `StubEventService.registerTransactionListener`: create a fresh
`StubTransactionEventListener`, add it to the set, return it. -/
def registerTransactionListener (s : SvcState) (txid : String) (cbId : Nat)
    (options : EventRegistrationOptions) : SvcState × Listener :=
  let listener : Listener :=
    { lid := s.nextLid, transactionId := txid, cbId := cbId, options := options }
  ({ s with eventListeners := s.eventListeners ++ [listener], nextLid := s.nextLid + 1 },
    listener)

/-- Run a user callback body.  An `unregisterL` on an absent listener
throws exactly as the service method does; a throw stops the body. -/
def runActs (env : Nat → List CbAct) : List CbAct → SvcState → R
  | [], s => (s, none)
  | CbAct.unregisterL lid :: rest, s =>
    match unregisterEventListener s lid with
    | (s', none) => runActs env rest s'
    | r => r
  | CbAct.registerL txid cbId options :: rest, s =>
    runActs env rest (registerTransactionListener s txid cbId options).1
  | CbAct.throwE msg :: _, s => (s, some msg)

/-- The match condition of `StubTransactionEventListener.onEvent`:
`error || event.transactionId === this.transactionId` (a delivered
error matches unconditionally; `||` short-circuits, so the event is not
inspected then). -/
def matchesDelivery (error : Option String) (event : Option EventInfo)
    (l : Listener) : Bool :=
  error.isSome || (event.map EventInfo.transactionId == some l.transactionId)

/-- The one-shot test of `onEvent`: `this.options.unregister !== false`. -/
def oneShot (l : Listener) : Bool :=
  l.options.unregister != some false

/-- `StubTransactionEventListener.onEvent`: on a match, first
self-unregister when one-shot, then invoke the callback (logged, then
its body is run).  An exception from the unregister skips the callback;
an exception from the callback body propagates with the mutations kept. -/
def onEvent (env : Nat → List CbAct) (l : Listener) (error : Option String)
    (event : Option EventInfo) (s : SvcState) : R :=
  if matchesDelivery error event l then
    match (if oneShot l then unregisterEventListener s l.lid else (s, none)) with
    | (s1, none) =>
      runActs env (env l.cbId)
        { s1 with log := s1.log ++ [{ cbId := l.cbId, lid := l.lid, error := error, event := event }] }
    | r => r
  else (s, none)

/-- The next listener a live `Set.forEach` visits: the first member of
the current set not yet visited. -/
def findUnvisited (ls : List Listener) (visited : List Nat) : Option Listener :=
  ls.find? (fun l => !(visited.any (fun v => v == l.lid)))

/-- Live iteration of `Set.forEach (listener => listener.onEvent (error, event))`:
repeatedly visit the first not-yet-visited member of the current set.
Deletions of unvisited members hide them; additions are visited.  An
exception thrown by `onEvent` aborts the iteration and propagates.
Fuel bounds the loop (exhaustion reports a distinguished message, so a
`none` exception component certifies genuine termination). -/
def forEachLoop (env : Nat → List CbAct) (error : Option String)
    (event : Option EventInfo) : Nat → List Nat → SvcState → R
  | 0, _, s => (s, some "forEachLoop: out of fuel")
  | Nat.succ fuel, visited, s =>
    match findUnvisited s.eventListeners visited with
    | none => (s, none)
    | some l =>
      match onEvent env l error event s with
      | (s', none) => forEachLoop env error event fuel (visited ++ [l.lid]) s'
      | r => r

/-- `StubEventService.sendEvent`: deliver `(undefined, event)` to every
currently registered listener via live `forEach`. -/
def sendEvent (env : Nat → List CbAct) (s : SvcState) (event : EventInfo)
    (fuel : Nat) : R :=
  forEachLoop env none (some event) fuel [] s

/-- `StubEventService.sendError`: deliver `(error, undefined)` to every
currently registered listener via live `forEach`. -/
def sendError (env : Nat → List CbAct) (s : SvcState) (error : String)
    (fuel : Nat) : R :=
  forEachLoop env (some error) none fuel [] s

/-- Listeners have pairwise distinct identities (a `Set` holds each
object at most once). -/
def distinctLids (ls : List Listener) : Prop :=
  List.Pairwise (fun a b => a.lid ≠ b.lid) ls

instance (ls : List Listener) : Decidable (distinctLids ls) := by
  unfold distinctLids
  infer_instance

/-- Every listener in `ls` has a trivial (purely observational) callback
body under `env`: the callback records its invocation but neither
mutates the listener set nor throws. -/
def plainEnv (env : Nat → List CbAct) (ls : List Listener) : Prop :=
  ∀ l ∈ ls, env l.cbId = []

/-- The invocation record a delivery of `(error, event)` to `l` writes. -/
def deliveryRecord (error : Option String) (event : Option EventInfo)
    (l : Listener) : CallRecord :=
  { cbId := l.cbId, lid := l.lid, error := error, event := event }

/-- The state an error delivery leaves behind on a service whose
callbacks are plain: every listener was matched (errors match
unconditionally) and logged, and the one-shot ones removed themselves. -/
def postErrorState (s : SvcState) (error : String) : SvcState :=
  { eventListeners := s.eventListeners.filter (fun l => !(oneShot l)),
    nextLid := s.nextLid,
    log := s.log ++ s.eventListeners.map (deliveryRecord (some error) none) }

/-- The state an event delivery leaves behind on a service whose
callbacks are plain: exactly the listeners watching the event's
transaction id were invoked, and the matched one-shot ones removed
themselves. -/
def postEventState (s : SvcState) (e : EventInfo) : SvcState :=
  { eventListeners :=
      s.eventListeners.filter (fun l => !(matchesDelivery none (some e) l && oneShot l)),
    nextLid := s.nextLid,
    log := s.log ++ (s.eventListeners.filter (matchesDelivery none (some e))).map
      (deliveryRecord none (some e)) }

/-! ## Part 2: the `Network` class of `fabric-network/src/network.js` -/

/-- An `Endorser` peer as the initialization code reads it: its name,
organization (msp) id, whether it is connected, and its endpoint. -/
structure Endorser where
  name : String
  mspid : String
  connected : Bool
  endpoint : String
deriving DecidableEq

/-- The discovery options handed to `_initializeInternalChannel`.
`targets = none` models an absent (`undefined`/falsy) `options.targets`;
`some ts` models a supplied array (a supplied empty array is truthy in
JavaScript, so it takes the explicit-targets branch). -/
structure DiscoveryOptions where
  enabled : Bool
  targets : Option (List Endorser)
  asLocalhost : Bool
deriving DecidableEq

/-- The channel collaborator as `_initializeInternalChannel` reads it:
`channel.getEndorsers(mspId)` and `channel.client.getEndorsers(mspId?)`
(the latter with an optional organization filter). -/
structure Channel where
  name : String
  channelGetEndorsers : Option String → List Endorser
  clientGetEndorsers : Option String → List Endorser

/-- A network call made during initialization: connecting a discoverer
to a peer endpoint, or sending the discovery request to the connected
discoverers.  (`newDiscoverer`, `build` and `sign` are local
operations.) -/
inductive NetCall where
  | connect (peerName : String) (endpoint : String)
  | discoverySend (asLocalhost : Bool) (targetNames : List String)
deriving DecidableEq

/-- The network calls the discovery phase performs once targets are
resolved: one `connect` per target peer, then a single discovery
`send` over all the discoverers. -/
def discoveryTrace (asLocalhost : Bool) (targets : List Endorser) : List NetCall :=
  targets.map (fun p => NetCall.connect p.name p.endpoint) ++
    [NetCall.discoverySend asLocalhost (targets.map Endorser.name)]

/-- `Network._initializeInternalChannel`: with discovery enabled, resolve
targets (caller-supplied list, else channel endorsers for the caller's
mspId, else client endorsers for that mspId, else any client endorser),
failing with `No discovery targets found` when the resolved list is
empty and with a peer-naming error on the first supplied target that is
not connected.  The result pairs the trace of network calls actually
made with the thrown error, if any; every throw happens before the
first network call, so the error results carry an empty trace. -/
def initializeInternalChannel (ch : Channel) (mspId : String)
    (options : DiscoveryOptions) : List NetCall × Option String :=
  if options.enabled then
    match options.targets with
    | some ts =>
      if ts.length > 0 then
        match ts.find? (fun t => !t.connected) with
        | some t =>
          ([], some ("Endorser instance " ++ t.name ++ " is not connected to an endpoint"))
        | none => (discoveryTrace options.asLocalhost ts, none)
      else ([], some "No discovery targets found")
    | none =>
      let channelTargets := ch.channelGetEndorsers (some mspId)
      let clientMspTargets := ch.clientGetEndorsers (some mspId)
      let anyTargets := ch.clientGetEndorsers none
      let targets :=
        if channelTargets.length < 1 then
          if clientMspTargets.length < 1 then anyTargets else clientMspTargets
        else channelTargets
      if targets.length < 1 then ([], some "No discovery targets found")
      else (discoveryTrace options.asLocalhost targets, none)
  else ([], none)

/-- A `Contract` handle as `getContract` constructs it.  `id` is the
object identity of the handle (two calls return the same instance
exactly when they return equal ids). -/
structure Contract where
  id : Nat
  chaincodeId : String
  name : String
  collections : Option (List String)
deriving DecidableEq

/-- The state of a `Network` instance: the initialized flag, the
contract map (association list keyed by `chaincodeId + ":" + name`,
with a counter for fresh contract identities), and the commit-listener
map from callback identity to session identity (with a counter for
fresh sessions; `CommitListenerSession` construction allocates a fresh
session, and its `start`/`close` bodies live outside this repository
slice, so they are modelled as not touching the map). -/
structure NetworkState where
  initialized : Bool
  contracts : List (String × Contract)
  nextContractId : Nat
  commitListeners : List (Nat × Nat)
  nextSessionId : Nat
deriving DecidableEq

/-- `Network.getContract`: throw when the network is not initialized;
otherwise look the joined key up in the contract map and construct,
store and return a fresh `Contract` when absent. -/
def getContract (s : NetworkState) (chaincodeId : String) (name : String)
    (collections : Option (List String)) : Except String (NetworkState × Contract) :=
  if !s.initialized then
    Except.error "Unable to get contract as this network has failed to initialize"
  else
    let key := chaincodeId ++ ":" ++ name
    match s.contracts.find? (fun kv => kv.1 == key) with
    | some kv => Except.ok (s, kv.2)
    | none =>
      let contract : Contract :=
        { id := s.nextContractId, chaincodeId := chaincodeId, name := name,
          collections := collections }
      Except.ok
        ({ s with
            contracts := s.contracts ++ [(key, contract)],
            nextContractId := s.nextContractId + 1 }, contract)

/-- `Network.addCommitListener`: when the callback identity is not yet in
the map, construct a fresh `CommitListenerSession`, store it under the
callback, and start it; always return the caller's callback. -/
def addCommitListener (s : NetworkState) (callbackId : Nat) : NetworkState × Nat :=
  if s.commitListeners.any (fun kv => kv.1 == callbackId) then (s, callbackId)
  else
    ({ s with
        commitListeners := s.commitListeners ++ [(callbackId, s.nextSessionId)],
        nextSessionId := s.nextSessionId + 1 }, callbackId)

/-- `Network.removeCommitListener`: when a session is stored under the
callback identity, close it and delete the entry; otherwise do nothing. -/
def removeCommitListener (s : NetworkState) (callbackId : Nat) : NetworkState :=
  if s.commitListeners.any (fun kv => kv.1 == callbackId) then
    { s with commitListeners := s.commitListeners.filter (fun kv => !(kv.1 == callbackId)) }
  else s

/-- The session identity currently stored for a callback identity. -/
def findSession (s : NetworkState) (callbackId : Nat) : Option Nat :=
  (s.commitListeners.find? (fun kv => kv.1 == callbackId)).map (fun kv => kv.2)

/-! ## Supporting lemmas -/

lemma any_beq_of_mem {v : List Nat} {x : Nat} (h : x ∈ v) :
    v.any (fun a => a == x) = true :=
  List.any_eq_true.mpr ⟨x, h, by simp⟩

lemma any_beq_of_not_mem {v : List Nat} {x : Nat} (h : x ∉ v) :
    v.any (fun a => a == x) = false := by
  apply List.any_eq_false.mpr
  intro a ha
  simp only [beq_iff_eq]
  exact fun hax => h (hax ▸ ha)

lemma find?_append_of_all_neg {α : Type} {p : α → Bool} {A : List α} (B : List α)
    (h : ∀ a ∈ A, p a = false) : (A ++ B).find? p = B.find? p := by
  induction A with
  | nil => simp
  | cons a A ih =>
    simp only [List.cons_append]
    rw [List.find?_cons_of_neg _ (by simp [h a (List.mem_cons_self _ _)])]
    exact ih (fun x hx => h x (List.mem_cons_of_mem _ hx))

lemma findUnvisited_none {ls : List Listener} {visited : List Nat}
    (h : ∀ l ∈ ls, l.lid ∈ visited) : findUnvisited ls visited = none := by
  apply List.find?_eq_none.mpr
  intro l hl
  simp [any_beq_of_mem (h l hl)]

lemma findUnvisited_head {keep : List Listener} {l : Listener} {rest : List Listener}
    {visited : List Nat} (hk : ∀ k ∈ keep, k.lid ∈ visited) (hl : l.lid ∉ visited) :
    findUnvisited (keep ++ l :: rest) visited = some l := by
  unfold findUnvisited
  rw [find?_append_of_all_neg _ (fun k hk' => by simp [any_beq_of_mem (hk k hk')])]
  exact List.find?_cons_of_pos _ (by simp [any_beq_of_not_mem hl])

lemma forEachLoop_succ (env : Nat → List CbAct) (error : Option String)
    (event : Option EventInfo) (fuel : Nat) (visited : List Nat) (s : SvcState) :
    forEachLoop env error event (fuel + 1) visited s =
      match findUnvisited s.eventListeners visited with
      | none => (s, none)
      | some l =>
        match onEvent env l error event s with
        | (s', none) => forEachLoop env error event fuel (visited ++ [l.lid]) s'
        | r => r := rfl

lemma unregisterEventListener_log (s : SvcState) (lid : Nat) :
    (unregisterEventListener s lid).1.log = s.log := by
  unfold unregisterEventListener; split <;> rfl

lemma unregisterEventListener_nextLid (s : SvcState) (lid : Nat) :
    (unregisterEventListener s lid).1.nextLid = s.nextLid := by
  unfold unregisterEventListener; split <;> rfl

lemma unregisterEventListener_subset (s : SvcState) (lid : Nat) :
    ∀ x ∈ (unregisterEventListener s lid).1.eventListeners, x ∈ s.eventListeners := by
  unfold unregisterEventListener
  split
  · intro x hx
    exact (List.mem_filter.mp hx).1
  · intro x hx
    exact hx

lemma onEvent_not_matched {env : Nat → List CbAct} {l : Listener}
    {error : Option String} {event : Option EventInfo} {s : SvcState}
    (h : matchesDelivery error event l = false) :
    onEvent env l error event s = (s, none) := by
  simp [onEvent, h]

lemma onEvent_matched_persistent {env : Nat → List CbAct} {l : Listener}
    {error : Option String} {event : Option EventInfo} {s : SvcState}
    (hm : matchesDelivery error event l = true) (hos : oneShot l = false)
    (hplain : env l.cbId = []) :
    onEvent env l error event s =
      ({ s with log := s.log ++ [deliveryRecord error event l] }, none) := by
  simp [onEvent, hm, hos, hplain, runActs, deliveryRecord]

lemma onEvent_matched_oneShot {env : Nat → List CbAct} {l : Listener}
    {error : Option String} {event : Option EventInfo} {s : SvcState}
    (hm : matchesDelivery error event l = true) (hos : oneShot l = true)
    (hmem : s.eventListeners.any (fun x => x.lid == l.lid) = true)
    (hplain : env l.cbId = []) :
    onEvent env l error event s =
      ({ eventListeners := s.eventListeners.filter (fun x => !(x.lid == l.lid)),
         nextLid := s.nextLid,
         log := s.log ++ [deliveryRecord error event l] }, none) := by
  simp [onEvent, hm, hos, unregisterEventListener, hmem, hplain, runActs, deliveryRecord]

/-- Complete characterisation of a live `forEach` delivery over plain
callbacks, tracking the split of the current listener set into already
visited survivors (`keep`) and the not-yet-visited tail (`rest`):
every matching listener of the tail is invoked exactly once (in order),
the matching one-shot ones remove themselves, and no exception
escapes. -/
lemma forEachLoop_plain (env : Nat → List CbAct) (error : Option String)
    (event : Option EventInfo) (rest : List Listener) :
    ∀ (keep : List Listener) (visited : List Nat) (nl : Nat) (log0 : List CallRecord),
      distinctLids (keep ++ rest) →
      (∀ k ∈ keep, k.lid ∈ visited) →
      (∀ l ∈ rest, l.lid ∉ visited) →
      plainEnv env rest →
      forEachLoop env error event (rest.length + 1) visited
          ⟨keep ++ rest, nl, log0⟩ =
        (⟨keep ++ rest.filter (fun l => !(matchesDelivery error event l && oneShot l)),
          nl,
          log0 ++ (rest.filter (matchesDelivery error event)).map
            (deliveryRecord error event)⟩, none) := by
  induction rest with
  | nil =>
    intro keep visited nl log0 _ hk _ _
    rw [forEachLoop_succ]
    simp [findUnvisited_none hk]
  | cons l rest ih =>
    intro keep visited nl log0 hdist hk hr hp
    have hlnot : l.lid ∉ visited := hr l (List.mem_cons_self _ _)
    have hplainl : env l.cbId = [] := hp l (List.mem_cons_self _ _)
    -- distinctness facts
    rcases List.pairwise_append.mp hdist with ⟨hdk, hdlr, hcross⟩
    rcases List.pairwise_cons.mp hdlr with ⟨hlrest, hdrest⟩
    have hkl : ∀ k ∈ keep, k.lid ≠ l.lid :=
      fun k hk' => hcross k hk' l (List.mem_cons_self _ _)
    have hstep : forEachLoop env error event ((l :: rest).length + 1) visited
        ⟨keep ++ l :: rest, nl, log0⟩ =
        match onEvent env l error event ⟨keep ++ l :: rest, nl, log0⟩ with
        | (s', none) => forEachLoop env error event (rest.length + 1)
            (visited ++ [l.lid]) s'
        | r => r := by
      rw [show (l :: rest).length + 1 = (rest.length + 1) + 1 by simp]
      rw [forEachLoop_succ]
      rw [show findUnvisited (SvcState.eventListeners ⟨keep ++ l :: rest, nl, log0⟩)
            visited = some l from findUnvisited_head hk hlnot]
    rw [hstep]
    -- invariants for the recursive call after visiting l
    have hk' : ∀ k ∈ keep ++ [l], k.lid ∈ visited ++ [l.lid] := by
      intro k hk'
      rcases List.mem_append.mp hk' with h | h
      · exact List.mem_append.mpr (Or.inl (hk k h))
      · simp at h
        simp [h]
    have hr' : ∀ x ∈ rest, x.lid ∉ visited ++ [l.lid] := by
      intro x hx hmem
      rcases List.mem_append.mp hmem with h | h
      · exact hr x (List.mem_cons_of_mem _ hx) h
      · simp at h
        exact hlrest x hx h.symm
    have hp' : plainEnv env rest := fun x hx => hp x (List.mem_cons_of_mem _ hx)
    have hdist' : distinctLids ((keep ++ [l]) ++ rest) := by
      rw [List.append_assoc]
      simpa using hdist
    cases hm : matchesDelivery error event l with
    | false =>
      rw [onEvent_not_matched hm]
      have hih := ih (keep ++ [l]) (visited ++ [l.lid]) nl log0 hdist' hk' hr' hp'
      simp only [List.append_assoc, List.singleton_append] at hih
      show forEachLoop env error event (rest.length + 1) (visited ++ [l.lid])
          ⟨keep ++ l :: rest, nl, log0⟩ = _
      rw [hih]
      simp [List.filter_cons, hm]
    | true =>
      cases hos : oneShot l with
      | false =>
        rw [onEvent_matched_persistent hm hos hplainl]
        have hih := ih (keep ++ [l]) (visited ++ [l.lid]) nl
          (log0 ++ [deliveryRecord error event l]) hdist' hk' hr' hp'
        simp only [List.append_assoc, List.singleton_append] at hih
        show forEachLoop env error event (rest.length + 1) (visited ++ [l.lid])
            ⟨keep ++ l :: rest, nl, log0 ++ [deliveryRecord error event l]⟩ = _
        rw [hih]
        simp [List.filter_cons, hm, hos]
      | true =>
        have hmem : (SvcState.eventListeners ⟨keep ++ l :: rest, nl, log0⟩).any
            (fun x => x.lid == l.lid) = true := by
          apply List.any_eq_true.mpr
          exact ⟨l, by simp, by simp⟩
        rw [onEvent_matched_oneShot hm hos hmem hplainl]
        have hfilter : (keep ++ l :: rest).filter (fun x => !(x.lid == l.lid)) =
            keep ++ rest := by
          rw [List.filter_append]
          congr 1
          · exact List.filter_eq_self.mpr (fun k hk' => by simp [hkl k hk'])
          · rw [List.filter_cons]
            rw [if_neg (by simp)]
            exact List.filter_eq_self.mpr (fun x hx => by
              have hne : x.lid ≠ l.lid := Ne.symm (hlrest x hx)
              simp [hne])
        have hdist2 : distinctLids (keep ++ rest) := by
          apply List.Pairwise.sublist _ hdist
          exact List.Sublist.append_left (List.sublist_cons_self _ _) keep
        have hkeep' : ∀ k ∈ keep, k.lid ∈ visited ++ [l.lid] :=
          fun k h => List.mem_append.mpr (Or.inl (hk k h))
        have hih := ih keep (visited ++ [l.lid]) nl
          (log0 ++ [deliveryRecord error event l]) hdist2 hkeep' hr' hp'
        show forEachLoop env error event (rest.length + 1) (visited ++ [l.lid])
            ⟨(keep ++ l :: rest).filter (fun x => !(x.lid == l.lid)), nl,
              log0 ++ [deliveryRecord error event l]⟩ = _
        rw [hfilter, hih]
        simp [List.filter_cons, hm, hos]

/-- Running a callback body never writes to the invocation log (only
`onEvent` itself logs invocations). -/
lemma runActs_log (env : Nat → List CbAct) :
    ∀ (acts : List CbAct) (s : SvcState), (runActs env acts s).1.log = s.log := by
  intro acts
  induction acts with
  | nil => intro s; rfl
  | cons a rest ih =>
    intro s
    cases a with
    | unregisterL lid =>
      rcases hu : unregisterEventListener s lid with ⟨s', e⟩
      have hlog : s'.log = s.log := by
        have h := unregisterEventListener_log s lid
        rw [hu] at h
        exact h
      show (match unregisterEventListener s lid with
        | (s', none) => runActs env rest s'
        | r => r).1.log = s.log
      rw [hu]
      cases e with
      | none => exact (ih s').trans hlog
      | some msg => exact hlog
    | registerL txid cbId options => exact ih _
    | throwE msg => rfl

/-- Every record in the log after `onEvent` was either already there or
is the record of this very delivery to this very listener. -/
lemma onEvent_log (env : Nat → List CbAct) (l : Listener) (error : Option String)
    (event : Option EventInfo) (s : SvcState) :
    ∀ r ∈ (onEvent env l error event s).1.log,
      r ∈ s.log ∨ r = deliveryRecord error event l := by
  unfold onEvent
  split
  · rcases hu : (if oneShot l then unregisterEventListener s l.lid else (s, none))
      with ⟨s1, e⟩
    have h1 : s1.log = s.log := by
      have : (if oneShot l then unregisterEventListener s l.lid else (s, none)).1.log
          = s.log := by
        split
        · exact unregisterEventListener_log s l.lid
        · rfl
      rw [hu] at this
      exact this
    cases e with
    | none =>
      intro r hr
      rw [runActs_log] at hr
      simp only [h1] at hr
      rcases List.mem_append.mp hr with h | h
      · exact Or.inl h
      · right
        simpa [deliveryRecord] using h
    | some msg =>
      intro r hr
      exact Or.inl (h1 ▸ hr)
  · intro r hr
    exact Or.inl hr

/-- Every record in the log after a `forEach` delivery was either
already there or carries exactly this delivery's `(error, event)`
pair — for arbitrary callback behaviour, including callbacks that
mutate the listener set or throw. -/
lemma forEachLoop_log (env : Nat → List CbAct) (error : Option String)
    (event : Option EventInfo) :
    ∀ (fuel : Nat) (visited : List Nat) (s : SvcState),
      ∀ r ∈ (forEachLoop env error event fuel visited s).1.log,
        r ∈ s.log ∨ (r.error = error ∧ r.event = event) := by
  intro fuel
  induction fuel with
  | zero => intro visited s r hr; exact Or.inl hr
  | succ fuel ih =>
    intro visited s r hr
    rw [forEachLoop_succ] at hr
    cases hf : findUnvisited s.eventListeners visited with
    | none =>
      rw [hf] at hr
      exact Or.inl hr
    | some l =>
      rw [hf] at hr
      rcases ho : onEvent env l error event s with ⟨s', e⟩
      have hr' : r ∈ (match onEvent env l error event s with
          | (s', none) => forEachLoop env error event fuel (visited ++ [l.lid]) s'
          | r => r).1.log := hr
      rw [ho] at hr'
      cases e with
      | none =>
        rcases ih (visited ++ [l.lid]) s' r hr' with h | h
        · rcases onEvent_log env l error event s r (by rw [ho]; exact h) with h' | h'
          · exact Or.inl h'
          · right
            rw [h']
            exact ⟨rfl, rfl⟩
        · exact Or.inr h
      | some msg =>
        rcases onEvent_log env l error event s r (by rw [ho]; exact hr') with h' | h'
        · exact Or.inl h'
        · right
          rw [h']
          exact ⟨rfl, rfl⟩

/-- Running any callback body cannot resurrect a listener identity that
is absent and below the fresh-identity counter: unregistering keeps it
absent, and newly registered listeners get strictly larger identities. -/
lemma runActs_keeps_absent (env : Nat → List CbAct) (lid0 : Nat) :
    ∀ (acts : List CbAct) (s : SvcState),
      lid0 < s.nextLid → (∀ x ∈ s.eventListeners, x.lid ≠ lid0) →
      lid0 < (runActs env acts s).1.nextLid ∧
        ∀ x ∈ (runActs env acts s).1.eventListeners, x.lid ≠ lid0 := by
  intro acts
  induction acts with
  | nil => intro s h1 h2; exact ⟨h1, h2⟩
  | cons a rest ih =>
    intro s h1 h2
    cases a with
    | unregisterL lid =>
      rcases hu : unregisterEventListener s lid with ⟨s', e⟩
      have hn : s'.nextLid = s.nextLid := by
        have h := unregisterEventListener_nextLid s lid
        rw [hu] at h
        exact h
      have hsub : ∀ x ∈ s'.eventListeners, x ∈ s.eventListeners := by
        have h := unregisterEventListener_subset s lid
        rw [hu] at h
        exact h
      show lid0 < (match unregisterEventListener s lid with
          | (s', none) => runActs env rest s'
          | r => r).1.nextLid ∧
        ∀ x ∈ (match unregisterEventListener s lid with
          | (s', none) => runActs env rest s'
          | r => r).1.eventListeners, x.lid ≠ lid0
      rw [hu]
      cases e with
      | none => exact ih s' (hn ▸ h1) (fun x hx => h2 x (hsub x hx))
      | some msg => exact ⟨hn ▸ h1, fun x hx => h2 x (hsub x hx)⟩
    | registerL txid cbId options =>
      apply ih
      · exact Nat.lt_succ_of_lt h1
      · intro x hx
        rcases List.mem_append.mp hx with h | h
        · exact h2 x h
        · simp only [List.mem_singleton] at h
          rw [h]
          exact fun hc => absurd (hc ▸ h1) (lt_irrefl _)
    | throwE msg => exact ⟨h1, h2⟩

/-! ## Concrete fixtures used by the witnesses -/

/-- A callback environment where every callback body is empty (purely
observational callbacks). -/
def env00 : Nat → List CbAct := fun _ => []

/-- A throwing callback environment: every callback body throws. -/
def envThrow : Nat → List CbAct := fun _ => [CbAct.throwE "boom"]

/-- A one-shot listener (options left at the default) watching `t1`. -/
def listener1 : Listener :=
  { lid := 0, transactionId := "t1", cbId := 0, options := { unregister := none } }

/-- A persistent listener (explicit `unregister: false`) watching `t2`. -/
def listener2 : Listener :=
  { lid := 1, transactionId := "t2", cbId := 1, options := { unregister := some false } }

/-- A service holding the two listeners above. -/
def svc0 : SvcState := { eventListeners := [listener1, listener2], nextLid := 2, log := [] }

/-- A callback environment where callback 0 unregisters the listener
with identity 1 (cross-mutation during dispatch); every other callback
is empty. -/
def envCross : Nat → List CbAct :=
  fun n => if n == 0 then [CbAct.unregisterL 1] else []

/-- A second one-shot listener, also watching `t1`. -/
def listener3 : Listener :=
  { lid := 1, transactionId := "t1", cbId := 1, options := { unregister := none } }

/-- A service holding `listener1` (whose callback under `envCross`
unregisters listener identity 1) followed by `listener3`. -/
def svcCross : SvcState :=
  { eventListeners := [listener1, listener3], nextLid := 2, log := [] }

/-! ## The claims -/

/-- An error delivery over plain callbacks: every listener is matched
and logged, the one-shot ones remove themselves, no exception escapes. -/
lemma sendError_plain (env : Nat → List CbAct) (s : SvcState) (err : String)
    (hdist : distinctLids s.eventListeners)
    (hplain : plainEnv env s.eventListeners) :
    sendError env s err (s.eventListeners.length + 1) = (postErrorState s err, none) := by
  have h := forEachLoop_plain env (some err) none s.eventListeners [] [] s.nextLid s.log
    (by simpa using hdist) (by simp) (by simp) hplain
  have hf1 : s.eventListeners.filter
      (fun l => !(matchesDelivery (some err) none l && oneShot l)) =
      s.eventListeners.filter (fun l => !(oneShot l)) :=
    List.filter_congr (fun a _ => rfl)
  have hf2 : s.eventListeners.filter (matchesDelivery (some err) none) =
      s.eventListeners :=
    List.filter_eq_self.mpr (fun a _ => rfl)
  rw [hf1, hf2] at h
  exact h

/-- An event delivery over plain callbacks: exactly the listeners
watching the event's transaction id are invoked, in set order, and the
matched one-shot ones remove themselves. -/
lemma sendEvent_plain (env : Nat → List CbAct) (s : SvcState) (e : EventInfo)
    (hdist : distinctLids s.eventListeners)
    (hplain : plainEnv env s.eventListeners) :
    sendEvent env s e (s.eventListeners.length + 1) = (postEventState s e, none) :=
  forEachLoop_plain env none (some e) s.eventListeners [] [] s.nextLid s.log
    (by simpa using hdist) (by simp) (by simp) hplain

/-- C1: an error delivery matches every currently registered listener
unconditionally — regardless of the transaction id it watches (the
first conjunct logs one record per listener, filtered by nothing) —
and a one-shot listener unregisters exactly once under a burst of two
errors: it is absent from the set right after the first delivery, and
the second delivery completes without an unregister error and never
invokes it again. -/
theorem claim_c1 (env : Nat → List CbAct) (s : SvcState) (err1 err2 : String)
    (hdist : distinctLids s.eventListeners)
    (hplain : plainEnv env s.eventListeners) :
    sendError env s err1 (s.eventListeners.length + 1) = (postErrorState s err1, none) ∧
    ∀ l ∈ s.eventListeners, oneShot l = true →
      l ∉ (postErrorState s err1).eventListeners ∧
      (sendError env (postErrorState s err1) err2
        ((postErrorState s err1).eventListeners.length + 1)).2 = none ∧
      ∀ r ∈ (sendError env (postErrorState s err1) err2
          ((postErrorState s err1).eventListeners.length + 1)).1.log,
        r ∉ (postErrorState s err1).log → r.lid ≠ l.lid := by
  have hdist' : distinctLids (postErrorState s err1).eventListeners :=
    List.Pairwise.sublist (List.filter_sublist _) hdist
  have hplain' : plainEnv env (postErrorState s err1).eventListeners :=
    fun x hx => hplain x (List.mem_filter.mp hx).1
  have hsecond := sendError_plain env (postErrorState s err1) err2 hdist' hplain'
  constructor
  · exact sendError_plain env s err1 hdist hplain
  · intro l hl hos
    refine ⟨?_, ?_, ?_⟩
    · intro hmem
      have hpred := (List.mem_filter.mp hmem).2
      rw [hos] at hpred
      simp at hpred
    · rw [hsecond]
    · intro r hr hnew
      rw [hsecond] at hr
      have hr2 : r ∈ (postErrorState s err1).log ++
          ((postErrorState s err1).eventListeners.map
            (deliveryRecord (some err2) none)) := hr
      rcases List.mem_append.mp hr2 with h | h
      · exact absurd h hnew
      · rcases List.mem_map.mp h with ⟨x, hx, hxr⟩
        have hxmem : x ∈ s.eventListeners := (List.mem_filter.mp hx).1
        have hxos : oneShot x = false := by
          have := (List.mem_filter.mp hx).2
          simpa using this
        have hxl : x ≠ l := fun hxe => by
          rw [hxe, hos] at hxos
          exact Bool.noConfusion hxos
        have hsymm : Symmetric (fun a b : Listener => a.lid ≠ b.lid) :=
          fun a b h => Ne.symm h
        have hlid : x.lid ≠ l.lid := hdist.forall hsymm hxmem hl hxl
        rw [← hxr]
        exact hlid

/-- Witness for C1: the two-listener service takes a burst of two
errors; both listeners are matched by the first error despite watching
different transaction ids, the one-shot listener is gone afterwards,
and the second error never touches it. -/
theorem claim_c1_witness :
    (sendError env00 svc0 "e1" (svc0.eventListeners.length + 1) =
      (postErrorState svc0 "e1", none)) ∧
    (listener1 ∉ (postErrorState svc0 "e1").eventListeners ∧
      (sendError env00 (postErrorState svc0 "e1") "e2"
        ((postErrorState svc0 "e1").eventListeners.length + 1)).2 = none ∧
      ∀ r ∈ (sendError env00 (postErrorState svc0 "e1") "e2"
          ((postErrorState svc0 "e1").eventListeners.length + 1)).1.log,
        r ∉ (postErrorState svc0 "e1").log → r.lid ≠ listener1.lid) :=
  ⟨(claim_c1 env00 svc0 "e1" "e2" (by decide) (fun l _ => rfl)).1,
    (claim_c1 env00 svc0 "e1" "e2" (by decide) (fun l _ => rfl)).2 listener1
      (by decide) (by decide)⟩

/-- C5: `unregisterEventListener` called with a handle that is not a
member of the listener set fails with the unregistered-listener error
and leaves the state (in particular the listener set) unchanged;
called with a member handle it succeeds, touches neither log nor
counter, and removes exactly that listener. -/
theorem claim_c5 (s : SvcState) (lid : Nat) :
    ((∀ l ∈ s.eventListeners, l.lid ≠ lid) →
      unregisterEventListener s lid =
        (s, some "unregisterEventLister called for listener that is not registered")) ∧
    (∀ l0, l0 ∈ s.eventListeners → l0.lid = lid → distinctLids s.eventListeners →
      (unregisterEventListener s lid).2 = none ∧
      (unregisterEventListener s lid).1.log = s.log ∧
      (unregisterEventListener s lid).1.nextLid = s.nextLid ∧
      ∀ l, l ∈ (unregisterEventListener s lid).1.eventListeners ↔
        (l ∈ s.eventListeners ∧ l ≠ l0)) := by
  constructor
  · intro h
    unfold unregisterEventListener
    rw [if_neg]
    intro hc
    rcases List.any_eq_true.mp hc with ⟨x, hx, hbeq⟩
    exact h x hx (by simpa using hbeq)
  · intro l0 hl0 heq hdist
    have hmem : s.eventListeners.any (fun l => l.lid == lid) = true :=
      List.any_eq_true.mpr ⟨l0, hl0, by simp [heq]⟩
    unfold unregisterEventListener
    rw [if_pos hmem]
    refine ⟨rfl, rfl, rfl, ?_⟩
    intro l
    simp only [List.mem_filter]
    constructor
    · rintro ⟨hmem', hpred⟩
      refine ⟨hmem', ?_⟩
      intro hll
      rw [hll] at hpred
      simp [heq] at hpred
    · rintro ⟨hmem', hne⟩
      refine ⟨hmem', ?_⟩
      have hsymm : Symmetric (fun a b : Listener => a.lid ≠ b.lid) :=
        fun a b h => Ne.symm h
      have hlid : l.lid ≠ l0.lid := hdist.forall hsymm hmem' hl0 hne
      rw [heq] at hlid
      simp [hlid]

/-- Witness for C5, exercising both the absent-handle and the
member-handle branch on the concrete two-listener service. -/
theorem claim_c5_witness :
    (unregisterEventListener svc0 7 =
      (svc0, some "unregisterEventLister called for listener that is not registered")) ∧
    ((unregisterEventListener svc0 0).2 = none ∧
      (unregisterEventListener svc0 0).1.log = svc0.log ∧
      (unregisterEventListener svc0 0).1.nextLid = svc0.nextLid ∧
      ∀ l, l ∈ (unregisterEventListener svc0 0).1.eventListeners ↔
        (l ∈ svc0.eventListeners ∧ l ≠ listener1)) :=
  ⟨(claim_c5 svc0 7).1 (by decide),
    (claim_c5 svc0 0).2 listener1 (by decide) (by decide) (by decide)⟩

/-- Counting the invocation records of one listener identity among the
records of pairwise distinct listeners. -/
lemma countP_lid_distinct (ls : List Listener) (l : Listener) (q : Listener → Bool)
    (hdist : distinctLids ls) (hl : l ∈ ls) :
    ls.countP (fun x => (x.lid == l.lid) && q x) = if q l then 1 else 0 := by
  induction ls with
  | nil => cases hl
  | cons a rest ih =>
    rcases List.pairwise_cons.mp hdist with ⟨ha, hrest⟩
    rw [List.countP_cons]
    rcases List.mem_cons.mp hl with h | h
    · subst h
      have hzero : rest.countP (fun x => (x.lid == l.lid) && q x) = 0 :=
        List.countP_eq_zero.mpr (fun x hx => by
          have hne : l.lid ≠ x.lid := ha x hx
          simp [Ne.symm hne])
      simp [hzero]
    · have hne : a.lid ≠ l.lid := ha l h
      have hfalse : ((a.lid == l.lid) && q a) = false := by simp [hne]
      rw [hfalse]
      simp [ih hrest h]

/-- C2 counterexample: on the live (non-snapshot) `forEach` of the
source, a callback that unregisters a not-yet-visited listener makes
`sendEvent` skip that listener entirely: `listener3` is registered at
call time and watches the delivered transaction id, the dispatch
completes without an exception, yet the only invocation logged is
`listener1`'s — `listener3`'s `onEvent` is never invoked. -/
theorem claim_c2_counterexample :
    listener3 ∈ svcCross.eventListeners ∧
    (sendEvent envCross svcCross { transactionId := "t1" } 3).2 = none ∧
    (sendEvent envCross svcCross { transactionId := "t1" } 3).1.log =
      [deliveryRecord none (some { transactionId := "t1" }) listener1] := by
  decide

/-- C2 amended: provided no listener's callback itself mutates the
listener set (plain callbacks — the source iterates the live set, so a
callback that unregisters a not-yet-visited listener makes the
dispatch skip it), `sendEvent` invokes `onEvent` exactly once on every
listener registered at call time whose transaction id matches, zero
times on the others, never invokes a listener after it has
unregistered, and the matched one-shot listeners are removed. -/
theorem claim_c2 (env : Nat → List CbAct) (s : SvcState) (e : EventInfo)
    (hdist : distinctLids s.eventListeners)
    (hplain : plainEnv env s.eventListeners) :
    sendEvent env s e (s.eventListeners.length + 1) = (postEventState s e, none) ∧
    ∀ l ∈ s.eventListeners,
      ((postEventState s e).log.drop s.log.length).countP (fun r => r.lid == l.lid) =
        (if matchesDelivery none (some e) l then 1 else 0) := by
  constructor
  · exact sendEvent_plain env s e hdist hplain
  · intro l hl
    have hdrop : (postEventState s e).log.drop s.log.length =
        (s.eventListeners.filter (matchesDelivery none (some e))).map
          (deliveryRecord none (some e)) := by
      show (s.log ++ _).drop s.log.length = _
      rw [List.drop_left]
    rw [hdrop]
    have h1 : ((s.eventListeners.filter (matchesDelivery none (some e))).map
        (deliveryRecord none (some e))).countP (fun r => r.lid == l.lid) =
        (s.eventListeners.filter (matchesDelivery none (some e))).countP
          (fun x => x.lid == l.lid) := by
      rw [List.countP_map]
      rfl
    rw [h1, List.countP_filter]
    exact countP_lid_distinct s.eventListeners l (matchesDelivery none (some e)) hdist hl

/-- Witness for C2 amended, on the two-listener service with plain
callbacks: the matching one-shot listener is invoked exactly once, the
non-matching one zero times. -/
theorem claim_c2_witness :
    (sendEvent env00 svc0 { transactionId := "t1" } (svc0.eventListeners.length + 1) =
      (postEventState svc0 { transactionId := "t1" }, none)) ∧
    ((postEventState svc0 { transactionId := "t1" }).log.drop svc0.log.length).countP
      (fun r => r.lid == listener1.lid) = 1 ∧
    ((postEventState svc0 { transactionId := "t1" }).log.drop svc0.log.length).countP
      (fun r => r.lid == listener2.lid) = 0 :=
  ⟨(claim_c2 env00 svc0 { transactionId := "t1" } (by decide) (fun l _ => rfl)).1,
    (claim_c2 env00 svc0 { transactionId := "t1" } (by decide) (fun l _ => rfl)).2
      listener1 (by decide),
    (claim_c2 env00 svc0 { transactionId := "t1" } (by decide) (fun l _ => rfl)).2
      listener2 (by decide)⟩

/-- C3: a matched one-shot listener is removed from the listener set
strictly before its callback body runs, so whatever that body does —
including throwing — the listener identity is no longer registered in
the resulting state. -/
theorem claim_c3 (env : Nat → List CbAct) (s : SvcState) (l : Listener)
    (error : Option String) (event : Option EventInfo)
    (hmem : l ∈ s.eventListeners) (hfresh : l.lid < s.nextLid)
    (hm : matchesDelivery error event l = true) (hos : oneShot l = true) :
    ∀ x ∈ (onEvent env l error event s).1.eventListeners, x.lid ≠ l.lid := by
  unfold onEvent
  rw [if_pos hm]
  simp only [hos, if_true]
  have hany : s.eventListeners.any (fun x => x.lid == l.lid) = true :=
    List.any_eq_true.mpr ⟨l, hmem, by simp⟩
  unfold unregisterEventListener
  rw [if_pos hany]
  show ∀ x ∈ (runActs env (env l.cbId)
      { eventListeners := s.eventListeners.filter (fun y => !(y.lid == l.lid)),
        nextLid := s.nextLid,
        log := s.log ++ [deliveryRecord error event l] }).1.eventListeners,
    x.lid ≠ l.lid
  refine (runActs_keeps_absent env l.lid (env l.cbId)
    { eventListeners := s.eventListeners.filter (fun y => !(y.lid == l.lid)),
      nextLid := s.nextLid,
      log := s.log ++ [deliveryRecord error event l] } hfresh ?_).2
  intro x hx
  have := (List.mem_filter.mp hx).2
  simpa using this

/-- Witness for C3: the one-shot listener watching `t1` receives a
matching event while its callback throws; the service state after the
escaped exception no longer holds the listener. -/
theorem claim_c3_witness :
    (listener1 ∈ svc0.eventListeners ∧ listener1.lid < svc0.nextLid ∧
      matchesDelivery none (some { transactionId := "t1" }) listener1 = true ∧
      oneShot listener1 = true ∧
      (onEvent envThrow listener1 none (some { transactionId := "t1" }) svc0).2 =
        some "boom") ∧
    ∀ x ∈ (onEvent envThrow listener1 none
        (some { transactionId := "t1" }) svc0).1.eventListeners,
      x.lid ≠ listener1.lid :=
  ⟨by decide,
    claim_c3 envThrow svc0 listener1 none (some { transactionId := "t1" })
      (by decide) (by decide) (by decide) (by decide)⟩

/-- Invocation records of listeners that all have an identity other
than `lid0` never pass a filter for `lid0`. -/
lemma filter_rec_lid_nil {er : Option String} {ev : Option EventInfo}
    (ls : List Listener) (lid0 : Nat) (h : ∀ x ∈ ls, x.lid ≠ lid0) :
    (ls.map (deliveryRecord er ev)).filter (fun r => r.lid == lid0) = [] := by
  apply List.filter_eq_nil.mpr
  intro r hr
  rcases List.mem_map.mp hr with ⟨x, hx, rfl⟩
  simp [deliveryRecord, h x hx]

/-- C4: a transaction listener freshly registered for id `T` with
default options (`unregister` unset), under plain callbacks: an event
carrying transaction id `T` fires its callback exactly once with that
event (the dispatch log gains exactly one record for the listener,
holding that event) and the listener is absent from the set
immediately after the delivery; an event carrying a different
transaction id neither invokes the callback nor unregisters the
listener. -/
theorem claim_c4 (env : Nat → List CbAct) (s : SvcState) (T : String) (cbId : Nat)
    (eMatch eOther : EventInfo)
    (hdist : distinctLids s.eventListeners)
    (hplain : plainEnv env s.eventListeners)
    (hcb : env cbId = [])
    (hbound : ∀ x ∈ s.eventListeners, x.lid < s.nextLid)
    (hT : eMatch.transactionId = T)
    (hO : eOther.transactionId ≠ T) :
    ∀ s' l, registerTransactionListener s T cbId { unregister := none } = (s', l) →
      (sendEvent env s' eMatch (s'.eventListeners.length + 1)).2 = none ∧
      ((sendEvent env s' eMatch (s'.eventListeners.length + 1)).1.log.drop
          s.log.length).filter (fun r => r.lid == l.lid) =
        [deliveryRecord none (some eMatch) l] ∧
      (∀ x ∈ (sendEvent env s' eMatch (s'.eventListeners.length + 1)).1.eventListeners,
        x.lid ≠ l.lid) ∧
      (sendEvent env s' eOther (s'.eventListeners.length + 1)).2 = none ∧
      ((sendEvent env s' eOther (s'.eventListeners.length + 1)).1.log.drop
          s.log.length).filter (fun r => r.lid == l.lid) = [] ∧
      l ∈ (sendEvent env s' eOther (s'.eventListeners.length + 1)).1.eventListeners := by
  intro s' l hreg
  injection hreg with h1 h2
  subst h1
  subst h2
  set L : Listener := { lid := s.nextLid, transactionId := T, cbId := cbId, options := { unregister := none } } with hL
  have hmL : matchesDelivery none (some eMatch) L = true := by
    simp [matchesDelivery, hL, hT]
  have hmO : matchesDelivery none (some eOther) L = false := by
    simp [matchesDelivery, hL]
    simpa using hO
  have hosL : oneShot L = true := by simp [oneShot, hL]
  have hdist' : distinctLids (s.eventListeners ++ [L]) := by
    unfold distinctLids
    refine List.pairwise_append.mpr ⟨hdist, List.pairwise_singleton _ _, ?_⟩
    intro a ha b hb
    rw [List.mem_singleton] at hb
    subst hb
    simpa [hL] using Nat.ne_of_lt (hbound a ha)
  have hplain' : plainEnv env (s.eventListeners ++ [L]) := by
    intro x hx
    rcases List.mem_append.mp hx with h | h
    · exact hplain x h
    · rw [List.mem_singleton] at h
      subst h
      exact hcb
  have hold : ∀ x ∈ s.eventListeners.filter (matchesDelivery none (some eMatch)),
      x.lid ≠ L.lid := fun x hx => by
    simpa [hL] using Nat.ne_of_lt (hbound x (List.mem_filter.mp hx).1)
  have holdO : ∀ x ∈ s.eventListeners.filter (matchesDelivery none (some eOther)),
      x.lid ≠ L.lid := fun x hx => by
    simpa [hL] using Nat.ne_of_lt (hbound x (List.mem_filter.mp hx).1)
  have hmainM := sendEvent_plain env
    { s with eventListeners := s.eventListeners ++ [L], nextLid := s.nextLid + 1 }
    eMatch hdist' hplain'
  have hmainO := sendEvent_plain env
    { s with eventListeners := s.eventListeners ++ [L], nextLid := s.nextLid + 1 }
    eOther hdist' hplain'
  refine ⟨?_, ?_, ?_, ?_, ?_, ?_⟩
  · rw [hmainM]
  · rw [hmainM]
    show ((s.log ++ ((s.eventListeners ++ [L]).filter
        (matchesDelivery none (some eMatch))).map
          (deliveryRecord none (some eMatch))).drop s.log.length).filter
        (fun r => r.lid == L.lid) = [deliveryRecord none (some eMatch) L]
    rw [List.drop_left, List.filter_append, List.map_append, List.filter_append]
    rw [filter_rec_lid_nil _ _ hold]
    simp [hmL, deliveryRecord]
  · rw [hmainM]
    intro x hx
    have hx' : x ∈ (s.eventListeners ++ [L]).filter
        (fun y => !(matchesDelivery none (some eMatch) y && oneShot y)) := hx
    rcases List.mem_filter.mp hx' with ⟨hxm, hpred⟩
    rcases List.mem_append.mp hxm with h | h
    · simpa [hL] using Nat.ne_of_lt (hbound x h)
    · rw [List.mem_singleton] at h
      subst h
      rw [hmL, hosL] at hpred
      simp at hpred
  · rw [hmainO]
  · rw [hmainO]
    show ((s.log ++ ((s.eventListeners ++ [L]).filter
        (matchesDelivery none (some eOther))).map
          (deliveryRecord none (some eOther))).drop s.log.length).filter
        (fun r => r.lid == L.lid) = []
    rw [List.drop_left, List.filter_append, List.map_append, List.filter_append]
    rw [filter_rec_lid_nil _ _ holdO]
    simp [hmO]
  · rw [hmainO]
    show L ∈ (s.eventListeners ++ [L]).filter
        (fun y => !(matchesDelivery none (some eOther) y && oneShot y))
    apply List.mem_filter.mpr
    refine ⟨List.mem_append.mpr (Or.inr (List.mem_singleton.mpr rfl)), ?_⟩
    simp [hmO]

/-- The listener `claim_c4_witness` registers on `svc0` for `t3`. -/
def newL : Listener :=
  { lid := 2, transactionId := "t3", cbId := 2, options := { unregister := none } }

/-- `svc0` right after registering `newL`. -/
def svcReg : SvcState :=
  { eventListeners := [listener1, listener2, newL], nextLid := 3, log := [] }

/-- Witness for C4: registering a default-options listener for `t3` on
the two-listener service, then delivering a `t3` event and a `zz`
event. -/
theorem claim_c4_witness :
    (sendEvent env00 svcReg { transactionId := "t3" }
      (svcReg.eventListeners.length + 1)).2 = none ∧
    ((sendEvent env00 svcReg { transactionId := "t3" }
        (svcReg.eventListeners.length + 1)).1.log.drop svc0.log.length).filter
      (fun r => r.lid == newL.lid) =
      [deliveryRecord none (some { transactionId := "t3" }) newL] ∧
    (∀ x ∈ (sendEvent env00 svcReg { transactionId := "t3" }
        (svcReg.eventListeners.length + 1)).1.eventListeners, x.lid ≠ newL.lid) ∧
    (sendEvent env00 svcReg { transactionId := "zz" }
      (svcReg.eventListeners.length + 1)).2 = none ∧
    ((sendEvent env00 svcReg { transactionId := "zz" }
        (svcReg.eventListeners.length + 1)).1.log.drop svc0.log.length).filter
      (fun r => r.lid == newL.lid) = [] ∧
    newL ∈ (sendEvent env00 svcReg { transactionId := "zz" }
      (svcReg.eventListeners.length + 1)).1.eventListeners :=
  claim_c4 env00 svc0 "t3" 2 { transactionId := "t3" } { transactionId := "zz" }
    (by decide) (fun x _ => rfl) rfl (by decide) rfl (by decide) svcReg newL (by decide)

/-- C9: a callback invocation record freshly written by a delivery
carries exactly one of error or event: `sendEvent` invokes callbacks
with the event and no error, `sendError` with the error and no event —
for arbitrary callback behaviour, including callbacks that mutate the
listener set or throw. -/
theorem claim_c9 (env : Nat → List CbAct) (s : SvcState) (e : EventInfo)
    (err : String) (fuel : Nat) :
    (∀ r ∈ (sendEvent env s e fuel).1.log, r ∉ s.log →
      r.error = none ∧ r.event = some e) ∧
    (∀ r ∈ (sendError env s err fuel).1.log, r ∉ s.log →
      r.error = some err ∧ r.event = none) := by
  constructor
  · intro r hr hnew
    rcases forEachLoop_log env none (some e) fuel [] s r hr with h | h
    · exact absurd h hnew
    · exact h
  · intro r hr hnew
    rcases forEachLoop_log env (some err) none fuel [] s r hr with h | h
    · exact absurd h hnew
    · exact h

/-- Witness for C9 on the concrete two-listener service: the record the
matching event delivery writes carries the event and no error, and the
record an error delivery writes carries the error and no event. -/
theorem claim_c9_witness :
    ((deliveryRecord none (some { transactionId := "t1" }) listener1).error = none ∧
      (deliveryRecord none (some { transactionId := "t1" }) listener1).event =
        some { transactionId := "t1" }) ∧
    ((deliveryRecord (some "err") none listener2).error = some "err" ∧
      (deliveryRecord (some "err") none listener2).event = none) :=
  ⟨(claim_c9 env00 svc0 { transactionId := "t1" } "err" 3).1
      (deliveryRecord none (some { transactionId := "t1" }) listener1)
      (by decide) (by decide),
    (claim_c9 env00 svc0 { transactionId := "t1" } "err" 3).2
      (deliveryRecord (some "err") none listener2)
      (by decide) (by decide)⟩

/-- C6: the commit-listener map holds at most one entry per callback
identity: adding a callback already stored creates no new session and
returns the same callback with the state untouched; for a callback not
yet stored, adding, removing, then adding again yields a fresh session
identity distinct from the first. -/
theorem claim_c6 (s : NetworkState) (cb : Nat) :
    (s.commitListeners.any (fun kv => kv.1 == cb) = true →
      addCommitListener s cb = (s, cb)) ∧
    (s.commitListeners.any (fun kv => kv.1 == cb) = false →
      findSession (addCommitListener s cb).1 cb = some s.nextSessionId ∧
      addCommitListener (addCommitListener s cb).1 cb = ((addCommitListener s cb).1, cb) ∧
      findSession (removeCommitListener (addCommitListener s cb).1 cb) cb = none ∧
      findSession (addCommitListener
        (removeCommitListener (addCommitListener s cb).1 cb) cb).1 cb =
        some (s.nextSessionId + 1) ∧
      s.nextSessionId + 1 ≠ s.nextSessionId) := by
  constructor
  · intro h
    unfold addCommitListener
    rw [if_pos h]
  · intro h
    have hall : ∀ kv ∈ s.commitListeners, (kv.1 == cb) = false := by
      intro kv hkv
      have := List.any_eq_false.mp h kv hkv
      simpa using this
    have hany1 : ((s.commitListeners ++ [(cb, s.nextSessionId)]).any
        (fun kv => kv.1 == cb)) = true :=
      List.any_eq_true.mpr ⟨(cb, s.nextSessionId), by simp, by simp⟩
    have hfilter : (s.commitListeners ++ [(cb, s.nextSessionId)]).filter
        (fun kv => !(kv.1 == cb)) = s.commitListeners := by
      rw [List.filter_append, List.filter_eq_self.mpr
        (fun kv hkv => by simp [hall kv hkv])]
      simp
    have hadd1 : addCommitListener s cb = ({ s with
        commitListeners := s.commitListeners ++ [(cb, s.nextSessionId)],
        nextSessionId := s.nextSessionId + 1 }, cb) := by
      unfold addCommitListener
      rw [if_neg (by simp [h])]
    have hrem : removeCommitListener { s with
        commitListeners := s.commitListeners ++ [(cb, s.nextSessionId)],
        nextSessionId := s.nextSessionId + 1 } cb =
        { s with nextSessionId := s.nextSessionId + 1 } := by
      unfold removeCommitListener
      rw [if_pos hany1, hfilter]
    have hadd2 : addCommitListener { s with nextSessionId := s.nextSessionId + 1 } cb =
        ({ s with
            commitListeners := s.commitListeners ++ [(cb, s.nextSessionId + 1)],
            nextSessionId := s.nextSessionId + 1 + 1 }, cb) := by
      unfold addCommitListener
      rw [if_neg (by simp [h])]
    refine ⟨?_, ?_, ?_, ?_, Nat.succ_ne_self _⟩
    · rw [hadd1]
      show ((s.commitListeners ++ [(cb, s.nextSessionId)]).find?
          (fun kv => kv.1 == cb)).map (fun kv => kv.2) = some s.nextSessionId
      rw [find?_append_of_all_neg _ hall, List.find?_cons_of_pos _ (by simp)]
      rfl
    · rw [hadd1]
      show addCommitListener { s with
          commitListeners := s.commitListeners ++ [(cb, s.nextSessionId)],
          nextSessionId := s.nextSessionId + 1 } cb = ({ s with
          commitListeners := s.commitListeners ++ [(cb, s.nextSessionId)],
          nextSessionId := s.nextSessionId + 1 }, cb)
      unfold addCommitListener
      rw [if_pos hany1]
    · rw [hadd1]
      show findSession (removeCommitListener { s with
          commitListeners := s.commitListeners ++ [(cb, s.nextSessionId)],
          nextSessionId := s.nextSessionId + 1 } cb) cb = none
      rw [hrem]
      show (s.commitListeners.find? (fun kv => kv.1 == cb)).map (fun kv => kv.2) = none
      rw [List.find?_eq_none.mpr (fun kv hkv => by simp [hall kv hkv])]
      rfl
    · rw [hadd1]
      show findSession (addCommitListener (removeCommitListener { s with
          commitListeners := s.commitListeners ++ [(cb, s.nextSessionId)],
          nextSessionId := s.nextSessionId + 1 } cb) cb).1 cb =
        some (s.nextSessionId + 1)
      rw [hrem, hadd2]
      show ((s.commitListeners ++ [(cb, s.nextSessionId + 1)]).find?
          (fun kv => kv.1 == cb)).map (fun kv => kv.2) = some (s.nextSessionId + 1)
      rw [find?_append_of_all_neg _ hall, List.find?_cons_of_pos _ (by simp)]
      rfl

/-- A network state for the C6 witness: initialized, no contracts, no
commit listeners, next session identity 5. -/
def net6 : NetworkState :=
  { initialized := true, contracts := [], nextContractId := 0,
    commitListeners := [], nextSessionId := 5 }

/-- Witness for C6 on a fresh commit-listener map: callback 7 gets
session 5, re-adding is a no-op, and remove followed by add yields the
distinct session 6. -/
theorem claim_c6_witness :
    findSession (addCommitListener net6 7).1 7 = some net6.nextSessionId ∧
    addCommitListener (addCommitListener net6 7).1 7 = ((addCommitListener net6 7).1, 7) ∧
    findSession (removeCommitListener (addCommitListener net6 7).1 7) 7 = none ∧
    findSession (addCommitListener
      (removeCommitListener (addCommitListener net6 7).1 7) 7).1 7 =
      some (net6.nextSessionId + 1) ∧
    net6.nextSessionId + 1 ≠ net6.nextSessionId :=
  (claim_c6 net6 7).2 (by decide)

/-- C7: with discovery enabled, initialization given an empty explicit
target list fails with the no-discovery-targets error having made no
network call, and given a supplied list whose first unconnected entry
is `t` it fails, again with no network call made, with an error naming
that peer. -/
theorem claim_c7 (ch : Channel) (mspId : String) (options : DiscoveryOptions)
    (henabled : options.enabled = true) :
    (options.targets = some [] →
      initializeInternalChannel ch mspId options =
        ([], some "No discovery targets found")) ∧
    (∀ ts t, options.targets = some ts →
      ts.find? (fun x => !x.connected) = some t →
      initializeInternalChannel ch mspId options =
        ([], some ("Endorser instance " ++ t.name ++
          " is not connected to an endpoint"))) := by
  constructor
  · intro h
    unfold initializeInternalChannel
    rw [if_pos henabled, h]
    simp
  · intro ts t hts hfind
    unfold initializeInternalChannel
    rw [if_pos henabled, hts]
    have hmem := List.mem_of_find?_eq_some hfind
    have hlen : ts.length > 0 := List.length_pos.mpr (by
      rintro rfl
      cases hmem)
    show (if ts.length > 0 then _ else _) = _
    rw [if_pos hlen, hfind]

/-- A channel whose endorser queries all come up empty. -/
def chEmpty : Channel :=
  { name := "ch", channelGetEndorsers := fun _ => [], clientGetEndorsers := fun _ => [] }

/-- An unconnected endorser. -/
def peerDown : Endorser :=
  { name := "peer1", mspid := "Org1", connected := false, endpoint := "ep1" }

/-- Witness for C7: the empty supplied list and a supplied list holding
one unconnected peer both fail with an empty network-call trace. -/
theorem claim_c7_witness :
    (initializeInternalChannel chEmpty "Org1"
      { enabled := true, targets := some [], asLocalhost := true } =
      ([], some "No discovery targets found")) ∧
    (initializeInternalChannel chEmpty "Org1"
      { enabled := true, targets := some [peerDown], asLocalhost := true } =
      ([], some ("Endorser instance " ++ peerDown.name ++
        " is not connected to an endpoint"))) :=
  ⟨(claim_c7 chEmpty "Org1"
      { enabled := true, targets := some [], asLocalhost := true } rfl).1 rfl,
    (claim_c7 chEmpty "Org1"
      { enabled := true, targets := some [peerDown], asLocalhost := true } rfl).2
      [peerDown] peerDown rfl (by decide)⟩

/-- The target list the discovery-less branch of
`initializeInternalChannel` resolves (definitionally equal to the
zeta-expansion of its let-chain): channel endorsers for the mspId,
else client endorsers for the mspId, else any client endorser. -/
def selectTargets (ch : Channel) (mspId : String) : List Endorser :=
  if (ch.channelGetEndorsers (some mspId)).length < 1 then
    if (ch.clientGetEndorsers (some mspId)).length < 1 then ch.clientGetEndorsers none
    else ch.clientGetEndorsers (some mspId)
  else ch.channelGetEndorsers (some mspId)

/-- C8: with discovery enabled and no caller-supplied targets, target
selection follows exactly the precedence channel-endorsers-for-mspid,
then client-endorsers-for-mspid, then any client endorser; the network
calls made are exactly the connects to the selected peers followed by
one discovery send over them, and when every source is empty the
initialization fails with the no-discovery-targets error having made
no network call. -/
theorem claim_c8 (ch : Channel) (mspId : String) (options : DiscoveryOptions)
    (henabled : options.enabled = true) (hnone : options.targets = none) :
    (ch.channelGetEndorsers (some mspId) ≠ [] →
      initializeInternalChannel ch mspId options =
        (discoveryTrace options.asLocalhost (ch.channelGetEndorsers (some mspId)),
          none)) ∧
    (ch.channelGetEndorsers (some mspId) = [] →
      ch.clientGetEndorsers (some mspId) ≠ [] →
      initializeInternalChannel ch mspId options =
        (discoveryTrace options.asLocalhost (ch.clientGetEndorsers (some mspId)),
          none)) ∧
    (ch.channelGetEndorsers (some mspId) = [] →
      ch.clientGetEndorsers (some mspId) = [] →
      ch.clientGetEndorsers none ≠ [] →
      initializeInternalChannel ch mspId options =
        (discoveryTrace options.asLocalhost (ch.clientGetEndorsers none), none)) ∧
    (ch.channelGetEndorsers (some mspId) = [] →
      ch.clientGetEndorsers (some mspId) = [] →
      ch.clientGetEndorsers none = [] →
      initializeInternalChannel ch mspId options =
        ([], some "No discovery targets found")) := by
  have hnotlt : ∀ l : List Endorser, l ≠ [] → ¬(l.length < 1) :=
    fun l hl => Nat.not_lt.mpr (List.length_pos.mpr hl)
  have hbody : ∀ rhs, (if (selectTargets ch mspId).length < 1
        then ([], some "No discovery targets found")
        else (discoveryTrace options.asLocalhost (selectTargets ch mspId), none)) = rhs →
      initializeInternalChannel ch mspId options = rhs := by
    intro rhs h
    rw [← h]
    unfold initializeInternalChannel
    rw [if_pos henabled, hnone]
    rfl
  refine ⟨?_, ?_, ?_, ?_⟩
  · intro h1
    have hsel : selectTargets ch mspId = ch.channelGetEndorsers (some mspId) := by
      unfold selectTargets
      rw [if_neg (hnotlt _ h1)]
    exact hbody _ (by rw [hsel, if_neg (hnotlt _ h1)])
  · intro h1 h2
    have hsel : selectTargets ch mspId = ch.clientGetEndorsers (some mspId) := by
      unfold selectTargets
      rw [h1, if_pos (by simp), if_neg (hnotlt _ h2)]
    exact hbody _ (by rw [hsel, if_neg (hnotlt _ h2)])
  · intro h1 h2 h3
    have hsel : selectTargets ch mspId = ch.clientGetEndorsers none := by
      unfold selectTargets
      rw [h1, h2, if_pos (by simp), if_pos (by simp)]
    exact hbody _ (by rw [hsel, if_neg (hnotlt _ h3)])
  · intro h1 h2 h3
    have hsel : selectTargets ch mspId = ch.clientGetEndorsers none := by
      unfold selectTargets
      rw [h1, h2, if_pos (by simp), if_pos (by simp)]
    exact hbody _ (by rw [hsel, h3, if_pos (by simp)])

/-- A connected endorser used by the C8 witness. -/
def peerA : Endorser :=
  { name := "pA", mspid := "Org1", connected := true, endpoint := "epA" }

/-- A channel whose channel-level endorser query yields `peerA`. -/
def chChan : Channel :=
  { name := "ch", channelGetEndorsers := fun _ => [peerA],
    clientGetEndorsers := fun _ => [] }

/-- A channel where only the client-level organization-filtered
endorser query yields `peerA`. -/
def chClientMsp : Channel :=
  { name := "ch", channelGetEndorsers := fun _ => [],
    clientGetEndorsers := fun o => if o.isSome then [peerA] else [] }

/-- A channel where only the unfiltered client endorser query yields
`peerA`. -/
def chClientAny : Channel :=
  { name := "ch", channelGetEndorsers := fun _ => [],
    clientGetEndorsers := fun o => if o.isSome then [] else [peerA] }

/-- The discovery options of the C8 witness: enabled, no supplied
targets. -/
def opts8 : DiscoveryOptions := { enabled := true, targets := none, asLocalhost := true }

/-- Witness for C8: the three non-empty sources are used in precedence
order (each producing the connect-then-send trace over `peerA`), and
the all-empty channel fails with an empty trace. -/
theorem claim_c8_witness :
    (initializeInternalChannel chChan "Org1" opts8 =
      (discoveryTrace opts8.asLocalhost (chChan.channelGetEndorsers (some "Org1")),
        none)) ∧
    (initializeInternalChannel chClientMsp "Org1" opts8 =
      (discoveryTrace opts8.asLocalhost (chClientMsp.clientGetEndorsers (some "Org1")),
        none)) ∧
    (initializeInternalChannel chClientAny "Org1" opts8 =
      (discoveryTrace opts8.asLocalhost (chClientAny.clientGetEndorsers none), none)) ∧
    (initializeInternalChannel chEmpty "Org1" opts8 =
      ([], some "No discovery targets found")) :=
  ⟨(claim_c8 chChan "Org1" opts8 rfl rfl).1 (by decide),
    (claim_c8 chClientMsp "Org1" opts8 rfl rfl).2.1 rfl (by decide),
    (claim_c8 chClientAny "Org1" opts8 rfl rfl).2.2.1 rfl rfl (by decide),
    (claim_c8 chEmpty "Org1" opts8 rfl rfl).2.2.2 rfl rfl rfl⟩

/-- An initialized network with an empty contract map. -/
def netInit : NetworkState :=
  { initialized := true, contracts := [], nextContractId := 0,
    commitListeners := [], nextSessionId := 0 }

/-- The contract the first `getContract ("a:b", "c")` call creates. -/
def contractAB : Contract :=
  { id := 0, chaincodeId := "a:b", name := "c", collections := none }

/-- `netInit` after that first call: one entry under the joined key
`a:b:c`. -/
def netAfter : NetworkState :=
  { initialized := true, contracts := [("a:b:c", contractAB)], nextContractId := 1,
    commitListeners := [], nextSessionId := 0 }

/-- C10 counterexample: the contract map is keyed by the joined string
`chaincodeId ++ ":" ++ name`, so the pair `("a", "b:c")` — new as a
pair — collides with the stored `("a:b", "c")`: the call returns the
old contract instance (whose `chaincodeId` is `"a:b"`, not `"a"`) and
stores nothing, contradicting the claim that a new pair creates
exactly one new contract. -/
theorem claim_c10_counterexample :
    getContract netInit "a:b" "c" none = Except.ok (netAfter, contractAB) ∧
    getContract netAfter "a" "b:c" none = Except.ok (netAfter, contractAB) ∧
    contractAB.chaincodeId ≠ "a" ∧
    ¬(("a" : String) = "a:b" ∧ ("b:c" : String) = "c") := by
  refine ⟨rfl, rfl, by decide, by decide⟩

/-- C10 amended: `getContract` throws whenever the network is not
initialized; on an initialized network it memoizes per joined key
`chaincodeId ++ ":" ++ name`: a call whose joined key is stored
returns the stored instance without touching the state, and a call
whose joined key is new creates exactly one contract, appends it
without altering existing entries, and a repeat call with the same
chaincode id and name returns that same instance.  (Because the key is
the joined string, distinct pairs with equal joins — `("a:b", "c")`
and `("a", "b:c")` — share one entry, so a new pair does not always
create a new contract.) -/
theorem claim_c10 (s : NetworkState) (chaincodeId name : String)
    (collections collections2 : Option (List String)) :
    (s.initialized = false →
      getContract s chaincodeId name collections =
        Except.error "Unable to get contract as this network has failed to initialize") ∧
    (s.initialized = true →
      ∀ kv, s.contracts.find? (fun kv => kv.1 == chaincodeId ++ ":" ++ name) = some kv →
        getContract s chaincodeId name collections = Except.ok (s, kv.2)) ∧
    (s.initialized = true →
      s.contracts.find? (fun kv => kv.1 == chaincodeId ++ ":" ++ name) = none →
      ∃ c, c = Contract.mk s.nextContractId chaincodeId name collections ∧
        getContract s chaincodeId name collections =
          Except.ok ({ s with
            contracts := s.contracts ++ [(chaincodeId ++ ":" ++ name, c)],
            nextContractId := s.nextContractId + 1 }, c) ∧
        getContract { s with
            contracts := s.contracts ++ [(chaincodeId ++ ":" ++ name, c)],
            nextContractId := s.nextContractId + 1 } chaincodeId name collections2 =
          Except.ok ({ s with
            contracts := s.contracts ++ [(chaincodeId ++ ":" ++ name, c)],
            nextContractId := s.nextContractId + 1 }, c)) := by
  refine ⟨?_, ?_, ?_⟩
  · intro h
    unfold getContract
    rw [if_pos (by simp [h])]
  · intro h kv hkv
    unfold getContract
    rw [if_neg (by simp [h])]
    dsimp only
    rw [hkv]
  · intro h hnone
    have hallneg : ∀ kv ∈ s.contracts, (kv.1 == chaincodeId ++ ":" ++ name) = false :=
      fun kv hkv => by
        have := List.find?_eq_none.mp hnone kv hkv
        simpa using this
    refine ⟨_, rfl, ?_, ?_⟩
    · unfold getContract
      rw [if_neg (by simp [h])]
      dsimp only
      rw [hnone]
    · unfold getContract
      rw [if_neg (by simp [h])]
      dsimp only
      rw [find?_append_of_all_neg _ hallneg, List.find?_cons_of_pos _ (by simp)]

/-- Witness for C10 amended: the uninitialized-network error, the
fresh-key creation on `netInit`, and the memoized repeat call. -/
theorem claim_c10_witness :
    (getContract { netInit with initialized := false } "a:b" "c" none =
      Except.error "Unable to get contract as this network has failed to initialize") ∧
    ∃ c, c = Contract.mk netInit.nextContractId "a:b" "c" none ∧
      getContract netInit "a:b" "c" none =
        Except.ok ({ netInit with
          contracts := netInit.contracts ++ [("a:b" ++ ":" ++ "c", c)],
          nextContractId := netInit.nextContractId + 1 }, c) ∧
      getContract { netInit with
          contracts := netInit.contracts ++ [("a:b" ++ ":" ++ "c", c)],
          nextContractId := netInit.nextContractId + 1 } "a:b" "c" (some ["col"]) =
        Except.ok ({ netInit with
          contracts := netInit.contracts ++ [("a:b" ++ ":" ++ "c", c)],
          nextContractId := netInit.nextContractId + 1 }, c) :=
  ⟨(claim_c10 { netInit with initialized := false } "a:b" "c" none none).1 rfl,
    (claim_c10 netInit "a:b" "c" none (some ["col"])).2.2 rfl rfl⟩

end FabricSdk
